import Mathlib

/-!
Shallow embedding of the crosscoap CoAP-to-HTTP proxy (translate.go and the
two revisions of ServeCOAP in crosscoap.go), together with theorems settling
the frozen claims about it.

Modelling conventions:
* Byte strings (tokens, payloads, bodies, URI-Query option values) are
  `List Nat` of byte values; Go string constants that are only compared as
  ASCII (content types, encodings) are Lean `String`s.
* The CoAP codec (github.com/energomonitor/go-coap) is an out-of-scope
  collaborator.  A message is modelled by the fields the core reads or
  writes; SetOption/Option calls on the option list become record fields.
  The codec's Block1()/Block2() accessors return the decoded triple
  (num, szx, more) where szx is the full size exponent (block size = 2^szx);
  the RFC 7959 wire szx field w in {0..6} corresponds to szx = w + 4, as
  exercised by the repository's own tests (SetBlock2(num, 4, _) producing
  16-byte blocks).
* MarshalBinary is used by the source only for the byte length of the
  header-only serialization, so it is passed in as a parameter
  marshalLen : Message -> Option Nat (none models a serialization error).
* Go machine integers: num and size are uint32, so the block offset
  multiplication wraps mod 2^32; the later int arithmetic is exact (64-bit,
  operands far below 2^63).  Go slice expressions that would panic
  (negative bounds, nil pointer dereference of a missing http.Response) make
  the embedded function return none.
-/

/-- CoAP message types (coap.COAPType). -/
inductive COAPType
  | confirmable
  | nonConfirmable
  | acknowledgement
  | reset
deriving DecidableEq, Repr

/-- The CoAP codes the proxy mentions (coap.COAPCode).  Empty is the zero
value a freshly constructed Go message carries before a code is assigned. -/
inductive COAPCode
  | Empty
  | GET
  | POST
  | PUT
  | DELETE
  | Created
  | Deleted
  | Valid
  | Changed
  | Content
  | Continue
  | BadRequest
  | Unauthorized
  | BadOption
  | Forbidden
  | NotFound
  | MethodNotAllowed
  | NotAcceptable
  | PreconditionFailed
  | RequestEntityTooLarge
  | UnsupportedMediaType
  | InternalServerError
  | NotImplemented
  | BadGateway
  | ServiceUnavailable
  | GatewayTimeout
deriving DecidableEq, Repr

/-- A CoAP option value as stored in the heterogeneous option list
(interface{} in Go): either a string of bytes or a value of any other
dynamic type (whose content the proxy never inspects). -/
inductive OptVal
  | str (s : List Nat)
  | other
deriving DecidableEq, Repr

/-- The slice of coap.Message the core reads or writes.  Option accesses in
the source (Option/Options/SetOption/RemoveOption on URIQuery,
ContentFormat, Block1, Block2) are modelled as record fields holding the
codec-decoded values. -/
structure Message where
  mtype : COAPType
  code : COAPCode
  messageID : Nat
  token : List Nat
  payload : List Nat
  contentFormat : Option Nat := none
  uriQuery : List OptVal := []
  block1 : Option (Nat × Nat × Bool) := none
  block2 : Option (Nat × Nat × Bool) := none
deriving DecidableEq, Repr

/-- translatedCOAPMessage: a coap.Message plus the IsTruncated flag. -/
structure translatedCOAPMessage where
  msg : Message
  isTruncated : Bool
deriving DecidableEq, Repr

/-- The parts of http.Response the translator reads: StatusCode and the
Content-Type / Content-Encoding headers. -/
structure HttpResponse where
  statusCode : Nat
  contentType : String
  contentEncoding : String
deriving DecidableEq, Repr

/-- The content struct of translate.go (fields Type and Encoding). -/
structure content where
  ctype : String
  encoding : String := ""
deriving DecidableEq, Repr

def maxCOAPPacketLen : Nat := 1500

def TextPlain : Nat := 0
def AppLinkFormat : Nat := 40
def AppXML : Nat := 41
def AppOctets : Nat := 42
def AppExi : Nat := 47
def AppJSON : Nat := 50
def appJSONDeflate : Nat := 11050

/-- The coapContentFormatContentType table of translate.go.  The Go map is
modelled as an association list; all lookups performed on it have at most
one matching entry, so the unspecified Go map iteration order is
irrelevant. -/
def coapContentFormatContentType : List (Nat × content) :=
  [ (TextPlain, { ctype := "text/plain;charset=utf-8" }),
    (AppLinkFormat, { ctype := "application/link-format" }),
    (AppXML, { ctype := "application/xml" }),
    (AppOctets, { ctype := "application/octet-stream" }),
    (AppExi, { ctype := "application/exi" }),
    (AppJSON, { ctype := "application/json" }),
    (appJSONDeflate, { ctype := "application/json", encoding := "deflate" }) ]

/-- Forward lookup coapContentFormatContentType[mediaType] (Go map index). -/
def coapContentFormatLookup (mediaType : Nat) : Option content :=
  (coapContentFormatContentType.find? (fun p => p.1 == mediaType)).map (fun p => p.2)

/-- The httpStatusCOAPCode table of translate.go (HTTP status values
written out numerically). -/
def httpStatusCOAPCode : List (Nat × COAPCode) :=
  [ (200, COAPCode.Content),
    (201, COAPCode.Created),
    (204, COAPCode.Content),
    (304, COAPCode.Valid),
    (400, COAPCode.BadRequest),
    (401, COAPCode.Unauthorized),
    (403, COAPCode.Forbidden),
    (404, COAPCode.NotFound),
    (405, COAPCode.MethodNotAllowed),
    (406, COAPCode.NotAcceptable),
    (412, COAPCode.PreconditionFailed),
    (413, COAPCode.RequestEntityTooLarge),
    (415, COAPCode.UnsupportedMediaType),
    (500, COAPCode.InternalServerError),
    (501, COAPCode.NotImplemented),
    (502, COAPCode.BadGateway),
    (503, COAPCode.ServiceUnavailable),
    (504, COAPCode.GatewayTimeout) ]

/-- translateStatusCode of translate.go: table lookup with 2.05 Content as
the default. -/
def translateStatusCode (httpStatusCode : Nat) : COAPCode :=
  match httpStatusCOAPCode.find? (fun p => p.1 == httpStatusCode) with
  | some p => p.2
  | none => COAPCode.Content

/-- Helper for trimCharset: the prefix of a character list up to (and
excluding) the first semicolon, i.e. strings.SplitN(s, ";", 2)[0]. -/
def takeUntilSemicolon : List Char → List Char
  | [] => []
  | c :: rest => if c = ';' then [] else c :: takeUntilSemicolon rest

/-- trimCharset of translate.go: strings.SplitN(val, ";", 2)[0]. -/
def trimCharset (val : String) : String :=
  String.mk (takeUntilSemicolon val.toList)

/-- translateContentTypeWithEncoding of translate.go: reverse lookup in the
table, matching on the charset-trimmed media type and on encoding equality.
The (0, false) failure result becomes none. -/
def translateContentTypeWithEncoding (contentType contentEncoding : String) : Option Nat :=
  let ct := trimCharset contentType
  (coapContentFormatContentType.find?
      (fun p => trimCharset p.2.ctype == ct && p.2.encoding == contentEncoding)).map
    (fun p => p.1)

/-- True iff the byte is an ASCII letter or digit. -/
def isAlphanumByte (b : Nat) : Bool :=
  (48 ≤ b && b ≤ 57) || (65 ≤ b && b ≤ 90) || (97 ≤ b && b ≤ 122)

/-- net/url shouldEscape for the query-component mode used by
url.QueryEscape: every byte other than ASCII alphanumerics and - _ . ~ is
escaped (the space byte is special-cased to a plus sign by the caller). -/
def shouldEscapeQueryByte (b : Nat) : Bool :=
  !(isAlphanumByte b || b == 45 || b == 95 || b == 46 || b == 126)

/-- Upper-case hex digit byte for a nibble, as in net/url ("0123456789ABCDEF"). -/
def upperhex (n : Nat) : Nat :=
  if n < 10 then 48 + n else 55 + n

/-- The expansion of one byte under url.QueryEscape: kept verbatim,
replaced by a plus sign (byte 43) for space, or percent-encoded as
a percent byte (37) and two upper-case hex digits. -/
def escapeByte (b : Nat) : List Nat :=
  if shouldEscapeQueryByte b then
    if b == 32 then [43]
    else [37, upperhex (b / 16 % 16), upperhex (b % 16)]
  else [b]

/-- url.QueryEscape over a byte string. -/
def queryEscape (s : List Nat) : List Nat :=
  (s.map escapeByte).flatten

/-- strings.SplitN(s, "=", 2) (byte 61 is the equals sign): the part before
the first equals sign, and, when one occurs, the remainder after it. -/
def splitAtFirstEq : List Nat → List Nat × Option (List Nat)
  | [] => ([], none)
  | b :: rest =>
    if b == 61 then ([], some rest)
    else
      let kv := splitAtFirstEq rest
      (b :: kv.1, kv.2)

/-- escapeKeyValue of translate.go: split at the first equals sign and
query-escape the key and the value independently; a value-less form is
escaped whole. -/
def escapeKeyValue (s : List Nat) : List Nat :=
  match splitAtFirstEq s with
  | (k, none) => queryEscape k
  | (k, some v) => queryEscape k ++ 61 :: queryEscape v

/-- The type switch part.(string) applied to a URI-Query option value. -/
def strOptVal : OptVal → Option (List Nat)
  | OptVal.str s => some s
  | OptVal.other => none

/-- The loop body of queryString: non-string option values are skipped
(continue), string values contribute their escaped form, in order. -/
def queryParts : List OptVal → List (List Nat)
  | [] => []
  | v :: rest =>
    match strOptVal v with
    | none => queryParts rest
    | some s => escapeKeyValue s :: queryParts rest

/-- queryString of translate.go: the escaped parts joined with ampersands
(byte 38) and prefixed with a question mark (byte 63), or empty when there
are no parts. -/
def queryString (coapMsg : Message) : List Nat :=
  let parts := queryParts coapMsg.uriQuery
  if parts.isEmpty then []
  else 63 :: List.intercalate [38] parts

/-- m.IsConfirmable(). -/
def Message.isConfirmable (m : Message) : Bool :=
  m.mtype == COAPType.confirmable

/-- The more flag of a decoded block option; false when the option is
absent (matching the zero value of the Go delayRequest variable). -/
def blockMore : Option (Nat × Nat × Bool) → Bool
  | some (_, _, more) => more
  | none => false

/-- size := uint32(math.Pow(2, float64(szx))).  math.Pow is exact on these
powers and the uint32 conversion is modelled as reduction mod 2^32 (the
codec only produces szx ≤ 11, for which the conversion is exact). -/
def blockSize (szx : Nat) : Nat := 2 ^ szx % 2 ^ 32

/-- The Block2 carving step of translateHTTPResponseToCOAPResponse
(translate.go lines 166-185): compute the read window, reset the offset to
0 when it lies beyond the body, clamp the end of the window to the body and
clear the more flag when the end was clamped.  Returns the carved slice and
the more flag.  num and size are uint32, so their product wraps mod 2^32;
the subsequent int arithmetic is exact. -/
def block2Carve (num szx : Nat) (httpBody : List Nat) : List Nat × Bool :=
  let size := blockSize szx
  let readFrom0 := num * size % 2 ^ 32
  let readTo0 := readFrom0 + size
  let readFrom := if httpBody.length < readFrom0 then 0 else readFrom0
  if httpBody.length < readTo0 then
    ((httpBody.drop readFrom).take (httpBody.length - readFrom), false)
  else
    ((httpBody.drop readFrom).take (readTo0 - readFrom), true)

/-- The skeleton CoAP response of translateHTTPResponseToCOAPResponse
(translate.go lines 143-150): an acknowledgement echoing the request's
messageID and token, with no code, options or payload yet. -/
def responseSkeleton (coapRequest : Message) : Message :=
  { mtype := COAPType.acknowledgement
    code := COAPCode.Empty
    messageID := coapRequest.messageID
    token := coapRequest.token
    payload := [] }

/-- The marshalling and MTU-fitting tail of
translateHTTPResponseToCOAPResponse (translate.go lines 196-213).  A failed
header-only marshal yields a 5.00 response with the Content-Format option
removed, returned together with the error.  Otherwise one byte is added for
the 0xFF payload separator and the body is clipped to the room left under
maxCOAPPacketLen; when the room is negative the Go slice expression
httpBody[:bytesLeft] panics, modelled as none. -/
def marshalAndFit (marshalLen : Message → Option Nat) (resp : Message)
    (httpBody : List Nat) : Option (translatedCOAPMessage × Bool) :=
  match marshalLen resp with
  | none =>
    some ({ msg := { resp with code := COAPCode.InternalServerError, contentFormat := none }
            isTruncated := false }, true)
  | some packetHeadersLen =>
    let headersLen := packetHeadersLen + 1
    if maxCOAPPacketLen < headersLen then none
    else
      let bytesLeft := maxCOAPPacketLen - headersLen
      if bytesLeft < httpBody.length then
        some ({ msg := { resp with payload := httpBody.take bytesLeft }
                isTruncated := true }, false)
      else
        some ({ msg := { resp with payload := httpBody }, isTruncated := false }, false)

/-- translateHTTPResponseToCOAPResponse of translate.go.  Parameters mirror
the Go signature: the HTTP response (none for the nil pointer), the raw
body bytes, whether httpError was non-nil, and the originating CoAP
request; marshalLen stands for the out-of-scope MarshalBinary codec call
(only the length of its result is used).  The Bool in the result is
whether the returned Go error was non-nil; the outer none models a panic
(nil response dereference). -/
def translateHTTPResponseToCOAPResponse (marshalLen : Message → Option Nat)
    (httpResp : Option HttpResponse) (httpBody : List Nat) (httpError : Bool)
    (coapRequest : Message) : Option (translatedCOAPMessage × Bool) :=
  let resp0 := responseSkeleton coapRequest
  if httpError then
    some ({ msg := { resp0 with code := COAPCode.ServiceUnavailable }
            isTruncated := false }, false)
  else
    let resp1 :=
      match coapRequest.block1 with
      | some (num, szx, more) => { resp0 with block1 := some (num, szx, more) }
      | none => resp0
    if blockMore coapRequest.block1 then
      some ({ msg := { resp1 with code := COAPCode.Continue }, isTruncated := false }, false)
    else
      let pr :=
        match coapRequest.block2 with
        | some (num, szx, _) => block2Carve num szx httpBody
        | none => (httpBody, true)
      let resp2 :=
        match coapRequest.block2 with
        | some (num, szx, _) => { resp1 with block2 := some (num, szx, pr.2) }
        | none => resp1
      match httpResp with
      | none => none
      | some hr =>
        let resp3 :=
          { resp2 with
            code := translateStatusCode hr.statusCode
            contentFormat := translateContentTypeWithEncoding hr.contentType hr.contentEncoding }
        marshalAndFit marshalLen resp3 pr.1

/-- generateCOAPResponseMessage of translate.go. -/
def generateCOAPResponseMessage (coapRequest : Message) (statusCode : COAPCode) : Message :=
  { mtype := COAPType.acknowledgement
    code := statusCode
    messageID := coapRequest.messageID
    token := coapRequest.token
    payload := [] }

/-- generateBadRequestCOAPResponse of translate.go. -/
def generateBadRequestCOAPResponse (coapRequest : Message) : translatedCOAPMessage :=
  { msg :=
      { mtype := COAPType.acknowledgement
        code := COAPCode.BadRequest
        messageID := coapRequest.messageID
        token := coapRequest.token
        payload := [] }
    isTruncated := false }

/-- The goroutine body of ServeCOAP v1 (crosscoap.go lines 210-255): run
the Block1 caching step, possibly delay the HTTP call (Block1 with more
set), otherwise issue it, and on a confirmable request send the translated
response over the channel.  Result: none models a panic inside the
goroutine; some r means the goroutine finished, where r is the message it
sent to the response channel (none when it sent nothing). -/
def goroutineV1 (marshalLen : Message → Option Nat) (m : Message) (cacheOk : Bool)
    (httpResult : Option (HttpResponse × List Nat)) : Option (Option Message) :=
  let waitForResponse := m.isConfirmable
  let cacheFail := m.block1.isSome && !cacheOk
  let delayRequest := !cacheFail && blockMore m.block1
  if cacheFail = true then
    some (some (generateCOAPResponseMessage m COAPCode.InternalServerError))
  else if delayRequest = true then
    if waitForResponse = true then
      match translateHTTPResponseToCOAPResponse marshalLen none [] false m with
      | none => none
      | some (tm, _) => some (some tm.msg)
    else some none
  else
    match httpResult with
    | none => some (some (generateCOAPResponseMessage m COAPCode.InternalServerError))
    | some (hr, httpBody) =>
      if waitForResponse = true then
        match translateHTTPResponseToCOAPResponse marshalLen (some hr) httpBody false m with
        | none => none
        | some (tm, _) => some (some tm.msg)
      else some none

/-- Whether the v1 goroutine issues (or attempts) a backend HTTP call: not
when the Block1 caching step failed, and not when the request is delayed by
a Block1 fragment with more set. -/
def httpCalledV1 (m : Message) (cacheOk : Bool) : Bool :=
  let cacheFail := m.block1.isSome && !cacheOk
  let delayRequest := !cacheFail && blockMore m.block1
  !cacheFail && !delayRequest

/-- ServeCOAP of crosscoap.go, first revision (lines 192-263, the one
importing energomonitor/go-coap and implementing the delayed Block1 path).
Environment parameters stand for out-of-scope collaborators: reqValid is
whether translateCOAPRequestToHTTPRequest returned non-nil, cacheOk is
whether cacheHTTPRequest succeeded, and httpResult is the outcome of the
backend HTTP call (none = transport error).  The result's first component
is the message returned to the dispatcher (the goroutine communicates with
the outer function over a channel; a confirmable request waits for it), the
second is whether a backend HTTP call was issued.  The outer none models a
panic inside the translation while a confirmable request is waiting. -/
def serveCOAP_v1 (marshalLen : Message → Option Nat) (m : Message)
    (reqValid cacheOk : Bool) (httpResult : Option (HttpResponse × List Nat)) :
    Option (Option Message × Bool) :=
  if reqValid = false then
    some (some (generateCOAPResponseMessage m COAPCode.BadRequest), false)
  else if m.isConfirmable = true then
    match goroutineV1 marshalLen m cacheOk httpResult with
    | none => none
    | some r => some (r, httpCalledV1 m cacheOk)
  else
    some (some (generateCOAPResponseMessage m COAPCode.Content), httpCalledV1 m cacheOk)

/-- ServeCOAP of crosscoap.go, second revision (lines 441-486, the one
importing besedad/go-coap): no Block1 delaying, HTTP transport errors are
logged and fall through into the translation, and a non-confirmable
request returns nil.  Parameters as in serveCOAP_v1 (there is no
cacheHTTPRequest step in this revision). -/
def serveCOAP_v2 (marshalLen : Message → Option Nat) (m : Message)
    (reqValid : Bool) (httpResult : Option (HttpResponse × List Nat)) :
    Option (Option Message × Bool) :=
  let waitForResponse := m.isConfirmable
  if reqValid = false then
    if waitForResponse = true then
      some (some (generateBadRequestCOAPResponse m).msg, false)
    else some (none, false)
  else
    if waitForResponse = true then
      match httpResult with
      | none =>
        match translateHTTPResponseToCOAPResponse marshalLen none [] true m with
        | none => none
        | some (tm, _) => some (some tm.msg, true)
      | some (hr, httpBody) =>
        match translateHTTPResponseToCOAPResponse marshalLen (some hr) httpBody false m with
        | none => none
        | some (tm, _) => some (some tm.msg, true)
    else some (none, true)

/-! ## Helper lemmas -/

theorem upperhex_ne_61 (x : Nat) : upperhex x ≠ 61 := by
  unfold upperhex
  split <;> omega

theorem shouldEscapeQueryByte_61 : shouldEscapeQueryByte 61 = true := by decide

theorem mem_escapeByte_ne_61 (b : Nat) : (61 : Nat) ∉ escapeByte b := by
  unfold escapeByte
  split
  · split
    · simp
    · intro hmem
      simp only [List.mem_cons, List.not_mem_nil, or_false] at hmem
      rcases hmem with h | h | h
      · omega
      · exact upperhex_ne_61 _ h.symm
      · exact upperhex_ne_61 _ h.symm
  · intro hmem
    rw [List.mem_singleton] at hmem
    rename_i hesc
    rw [← hmem] at hesc
    exact hesc shouldEscapeQueryByte_61

theorem mem_queryEscape_ne_61 (s : List Nat) : (61 : Nat) ∉ queryEscape s := by
  unfold queryEscape
  intro hmem
  rcases List.mem_flatten.mp hmem with ⟨l, hl, h61⟩
  rcases List.mem_map.mp hl with ⟨b, _, rfl⟩
  exact mem_escapeByte_ne_61 b h61

theorem splitAtFirstEq_no_eq (k : List Nat) (hk : (61 : Nat) ∉ k) :
    splitAtFirstEq k = (k, none) := by
  induction k with
  | nil => rfl
  | cons b rest ih =>
    simp only [List.mem_cons, not_or] at hk
    unfold splitAtFirstEq
    rw [if_neg (by simp only [beq_iff_eq]; exact fun h => hk.1 h.symm)]
    rw [ih hk.2]

theorem splitAtFirstEq_append (k v : List Nat) (hk : (61 : Nat) ∉ k) :
    splitAtFirstEq (k ++ 61 :: v) = (k, some v) := by
  induction k with
  | nil => simp [splitAtFirstEq]
  | cons b rest ih =>
    simp only [List.mem_cons, not_or] at hk
    simp only [List.cons_append]
    unfold splitAtFirstEq
    rw [if_neg (by simp only [beq_iff_eq]; exact fun h => hk.1 h.symm)]
    rw [ih hk.2]

theorem filterMap_strOptVal_map_str (qs : List (List Nat)) :
    (qs.map OptVal.str).filterMap strOptVal = qs := by
  induction qs with
  | nil => rfl
  | cons a t ih =>
    simp only [List.map_cons, List.filterMap_cons, strOptVal]
    rw [ih]

theorem queryParts_eq_filterMap (l : List OptVal) :
    queryParts l = (l.filterMap strOptVal).map escapeKeyValue := by
  induction l with
  | nil => rfl
  | cons v rest ih =>
    unfold queryParts
    cases v <;> simp [strOptVal, List.filterMap_cons, ih]

/-! ## Claims C7, C8, C10: query encoding and content-format table -/

/-- Claim C7: for every sequence of URI-Query option string values, the
produced query string percent-encodes each key and each value independently
(split at the first equals sign, byte 61), joins the pieces with ampersands
(byte 38), is empty for an empty sequence and otherwise prefixed with a
question mark (byte 63); a value-less key has no equals sign at all in its
encoded form. -/
theorem c7_query_encoding (qs : List (List Nat)) (msg : Message)
    (hq : msg.uriQuery = qs.map OptVal.str) :
    (queryString msg =
      if qs.isEmpty then []
      else 63 :: List.intercalate [38] (qs.map escapeKeyValue)) ∧
    (∀ k v : List Nat, (61 : Nat) ∉ k →
      escapeKeyValue (k ++ 61 :: v) = queryEscape k ++ 61 :: queryEscape v) ∧
    (∀ k : List Nat, (61 : Nat) ∉ k →
      escapeKeyValue k = queryEscape k ∧ (61 : Nat) ∉ escapeKeyValue k) := by
  refine ⟨?_, ?_, ?_⟩
  · unfold queryString
    rw [hq, queryParts_eq_filterMap, filterMap_strOptVal_map_str]
    cases qs <;> simp
  · intro k v hk
    unfold escapeKeyValue
    rw [splitAtFirstEq_append k v hk]
  · intro k hk
    refine ⟨?_, ?_⟩
    · unfold escapeKeyValue
      rw [splitAtFirstEq_no_eq k hk]
    · unfold escapeKeyValue
      rw [splitAtFirstEq_no_eq k hk]
      exact mem_queryEscape_ne_61 k

/-- Witness for c7_query_encoding at the single option value "a= "
(bytes 97, 61, 32). -/
theorem c7_query_encoding_witness :
    queryString
        { mtype := COAPType.confirmable, code := COAPCode.GET, messageID := 1,
          token := [], payload := [], uriQuery := [OptVal.str [97, 61, 32]] } =
      (if ([[97, 61, 32]] : List (List Nat)).isEmpty then []
       else 63 :: List.intercalate [38] ([[97, 61, 32]].map escapeKeyValue)) :=
  (c7_query_encoding [[97, 61, 32]]
    { mtype := COAPType.confirmable, code := COAPCode.GET, messageID := 1,
      token := [], payload := [], uriQuery := [OptVal.str [97, 61, 32]] } rfl).1

/-- Claim C8: every (mediaType, encoding) pair in the content-format table
survives the round trip: reverse lookup (translateContentTypeWithEncoding)
followed by forward lookup yields the original media type modulo the
charset suffix, and the original encoding. -/
theorem c8_content_format_roundtrip :
    ∀ p ∈ coapContentFormatContentType,
      ((translateContentTypeWithEncoding p.2.ctype p.2.encoding).bind
          coapContentFormatLookup).map (fun c => (trimCharset c.ctype, c.encoding)) =
        some (trimCharset p.2.ctype, p.2.encoding) := by decide

/-- Witness for c8_content_format_roundtrip at the text/plain table entry. -/
theorem c8_content_format_roundtrip_witness :
    ((translateContentTypeWithEncoding "text/plain;charset=utf-8" "").bind
        coapContentFormatLookup).map (fun c => (trimCharset c.ctype, c.encoding)) =
      some (trimCharset "text/plain;charset=utf-8", "") :=
  c8_content_format_roundtrip (TextPlain, { ctype := "text/plain;charset=utf-8" })
    (by decide)

/-- Claim C10: the query-string construction is total over heterogeneous
option values; URI-Query options whose value is not a string contribute
nothing, and the result is built from the string-valued options in order. -/
theorem c10_query_skips_nonstring (msg : Message) :
    queryString msg =
      (if ((msg.uriQuery.filterMap strOptVal).map escapeKeyValue).isEmpty then []
       else 63 :: List.intercalate [38] ((msg.uriQuery.filterMap strOptVal).map escapeKeyValue)) := by
  unfold queryString
  rw [queryParts_eq_filterMap]

/-! ## Evaluation lemmas for the translator -/

theorem marshalAndFit_const (L : Nat) (resp : Message) (body : List Nat)
    (hL : L + 1 ≤ maxCOAPPacketLen) :
    marshalAndFit (fun _ => some L) resp body =
      some ({ msg := { resp with payload := body.take (min body.length (maxCOAPPacketLen - (L + 1))) }
              isTruncated := decide (maxCOAPPacketLen - (L + 1) < body.length) }, false) := by
  simp only [marshalAndFit]
  rw [if_neg (by omega)]
  by_cases hb : maxCOAPPacketLen - (L + 1) < body.length
  · rw [if_pos hb]
    have h1 : min body.length (maxCOAPPacketLen - (L + 1)) = maxCOAPPacketLen - (L + 1) := by
      omega
    rw [h1, decide_eq_true hb]
  · rw [if_neg hb]
    have h1 : min body.length (maxCOAPPacketLen - (L + 1)) = body.length := by omega
    rw [h1, List.take_length, decide_eq_false hb]

theorem marshalAndFit_const_fits (L : Nat) (resp : Message) (body : List Nat)
    (h : L + 1 + body.length ≤ maxCOAPPacketLen) :
    marshalAndFit (fun _ => some L) resp body =
      some ({ msg := { resp with payload := body }, isTruncated := false }, false) := by
  rw [marshalAndFit_const L resp body (by omega)]
  have h1 : min body.length (maxCOAPPacketLen - (L + 1)) = body.length := by omega
  rw [h1, List.take_length, decide_eq_false (by omega)]

theorem translate_eval_noblock2 (L : Nat) (req : Message) (hr : HttpResponse)
    (body : List Nat) (hb1 : blockMore req.block1 = false) (hb2 : req.block2 = none) :
    translateHTTPResponseToCOAPResponse (fun _ => some L) (some hr) body false req =
      marshalAndFit (fun _ => some L)
        { mtype := COAPType.acknowledgement
          code := translateStatusCode hr.statusCode
          messageID := req.messageID
          token := req.token
          payload := []
          contentFormat := translateContentTypeWithEncoding hr.contentType hr.contentEncoding
          uriQuery := []
          block1 := req.block1
          block2 := none } body := by
  rcases hq1 : req.block1 with _ | ⟨n1, s1, m1⟩
  · simp [translateHTTPResponseToCOAPResponse, responseSkeleton, hq1, hb2, blockMore]
  · rw [hq1] at hb1
    simp only [blockMore] at hb1
    subst hb1
    simp [translateHTTPResponseToCOAPResponse, responseSkeleton, hq1, hb2, blockMore]

theorem translate_eval_block2 (L num szx : Nat) (b : Bool) (req : Message)
    (hr : HttpResponse) (body : List Nat)
    (hb1 : blockMore req.block1 = false) (hb2 : req.block2 = some (num, szx, b)) :
    translateHTTPResponseToCOAPResponse (fun _ => some L) (some hr) body false req =
      marshalAndFit (fun _ => some L)
        { mtype := COAPType.acknowledgement
          code := translateStatusCode hr.statusCode
          messageID := req.messageID
          token := req.token
          payload := []
          contentFormat := translateContentTypeWithEncoding hr.contentType hr.contentEncoding
          uriQuery := []
          block1 := req.block1
          block2 := some (num, szx, (block2Carve num szx body).2) }
        (block2Carve num szx body).1 := by
  rcases hq1 : req.block1 with _ | ⟨n1, s1, m1⟩
  · simp [translateHTTPResponseToCOAPResponse, responseSkeleton, hq1, hb2, blockMore]
  · rw [hq1] at hb1
    simp only [blockMore] at hb1
    subst hb1
    simp [translateHTTPResponseToCOAPResponse, responseSkeleton, hq1, hb2, blockMore]

theorem block2Carve_in_range (num szx : Nat) (body : List Nat)
    (hin : num * 2 ^ szx ≤ body.length)
    (hov : (num + 1) * 2 ^ szx < 2 ^ 32) :
    block2Carve num szx body =
      ((body.drop (num * 2 ^ szx)).take
          (min ((num + 1) * 2 ^ szx) body.length - num * 2 ^ szx),
       decide ((num + 1) * 2 ^ szx ≤ body.length)) := by
  have hsm : (num + 1) * 2 ^ szx = num * 2 ^ szx + 2 ^ szx := by ring
  rw [hsm] at hov ⊢
  simp only [block2Carve, blockSize]
  have hsz : 2 ^ szx % 2 ^ 32 = 2 ^ szx := Nat.mod_eq_of_lt (by omega)
  rw [hsz]
  have hrf : num * 2 ^ szx % 2 ^ 32 = num * 2 ^ szx := Nat.mod_eq_of_lt (by omega)
  rw [hrf]
  have hif : (if body.length < num * 2 ^ szx then 0 else num * 2 ^ szx) = num * 2 ^ szx :=
    if_neg (by omega)
  rw [hif]
  by_cases hc : body.length < num * 2 ^ szx + 2 ^ szx
  · rw [if_pos hc]
    have h1 : min (num * 2 ^ szx + 2 ^ szx) body.length = body.length := by omega
    have h2 : decide (num * 2 ^ szx + 2 ^ szx ≤ body.length) = false :=
      decide_eq_false (by omega)
    rw [h1, h2]
  · rw [if_neg hc]
    have h1 : min (num * 2 ^ szx + 2 ^ szx) body.length = num * 2 ^ szx + 2 ^ szx := by
      omega
    have h2 : decide (num * 2 ^ szx + 2 ^ szx ≤ body.length) = true :=
      decide_eq_true (by omega)
    rw [h1, h2]

theorem block2Carve_reset (num szx : Nat) (body : List Nat)
    (hszx : 2 ^ szx < 2 ^ 32)
    (hout : body.length < num * 2 ^ szx % 2 ^ 32) :
    block2Carve num szx body = (body, false) := by
  simp only [block2Carve, blockSize]
  have hsz : 2 ^ szx % 2 ^ 32 = 2 ^ szx := Nat.mod_eq_of_lt hszx
  rw [hsz]
  rw [if_pos (by omega)]
  rw [if_pos hout]
  simp

/-! ## Claims C1, C2, C9: response translation and Block2 carving -/

/-- Claim C2: for an HTTP response translated without a Block2 option and a
header-only serialization of length L, the CoAP payload is the body clipped
to min(len, 1500 - (L+1)), the truncated flag is set iff the body exceeds
1500 - (L+1), and the headers, separator byte and payload together never
exceed 1500 bytes. -/
theorem c2_mtu_truncation (L : Nat) (req : Message) (hr : HttpResponse) (body : List Nat)
    (hb1 : blockMore req.block1 = false) (hb2 : req.block2 = none)
    (hL : L + 1 ≤ maxCOAPPacketLen) :
    translateHTTPResponseToCOAPResponse (fun _ => some L) (some hr) body false req =
      some ({ msg :=
                { mtype := COAPType.acknowledgement
                  code := translateStatusCode hr.statusCode
                  messageID := req.messageID
                  token := req.token
                  payload := body.take (min body.length (maxCOAPPacketLen - (L + 1)))
                  contentFormat := translateContentTypeWithEncoding hr.contentType hr.contentEncoding
                  uriQuery := []
                  block1 := req.block1
                  block2 := none }
              isTruncated := decide (maxCOAPPacketLen - (L + 1) < body.length) }, false) ∧
    L + 1 + (body.take (min body.length (maxCOAPPacketLen - (L + 1)))).length ≤
      maxCOAPPacketLen := by
  constructor
  · rw [translate_eval_noblock2 L req hr body hb1 hb2, marshalAndFit_const L _ body hL]
  · rw [List.length_take]
    omega

/-- Witness for c2_mtu_truncation with a 3-byte body and headers of length 8. -/
theorem c2_mtu_truncation_witness :
    blockMore ({ mtype := COAPType.confirmable, code := COAPCode.GET, messageID := 3,
                 token := [7], payload := [] } : Message).block1 = false ∧
    ∃ out,
      translateHTTPResponseToCOAPResponse (fun _ => some 8)
          (some { statusCode := 200, contentType := "", contentEncoding := "" })
          [1, 2, 3] false
          { mtype := COAPType.confirmable, code := COAPCode.GET, messageID := 3,
            token := [7], payload := [] } = some out :=
  ⟨rfl,
    ⟨_, (c2_mtu_truncation 8
          { mtype := COAPType.confirmable, code := COAPCode.GET, messageID := 3,
            token := [7], payload := [] }
          { statusCode := 200, contentType := "", contentEncoding := "" }
          [1, 2, 3] rfl rfl (by decide)).1⟩⟩

/-- Claim C1 counterexample: with wire szx 0 (library szx 4, block size 16),
num 0 and a 16-byte body, (num+1)*2^(szx+4) = 16 is greater than or equal
to the body length, yet the code echoes the Block2 option with more = true
(the claim demands more = false), because the code clears the more flag
only when the window end is strictly beyond the body. -/
theorem c1_counterexample :
    translateHTTPResponseToCOAPResponse (fun _ => some 8)
        (some { statusCode := 200, contentType := "", contentEncoding := "" })
        (List.replicate 16 65) false
        { mtype := COAPType.confirmable, code := COAPCode.GET, messageID := 7,
          token := [1], payload := [], block2 := some (0, 0 + 4, false) } =
      some ({ msg :=
                { mtype := COAPType.acknowledgement, code := COAPCode.Content,
                  messageID := 7, token := [1], payload := List.replicate 16 65,
                  contentFormat := none, uriQuery := [], block1 := none,
                  block2 := some (0, 0 + 4, true) }
              isTruncated := false }, false) ∧
    (0 + 1) * 2 ^ (0 + 4) ≥ (List.replicate 16 65).length := by decide

/-- Claim C1 as amended: for a Block2 request whose decoded wire parameters
are (num, szx) (the codec hands the code szx+4) and whose window start
num*2^(szx+4) is within the body, the payload is the slice of the body from
num*2^(szx+4) to min((num+1)*2^(szx+4), len), and the echoed more flag is
false iff (num+1)*2^(szx+4) is strictly greater than the body length (at
exact equality the code still reports more = true and serves one extra
empty block). -/
theorem c1_amended_block2_slice (num szx L : Nat) (b : Bool) (req : Message)
    (hr : HttpResponse) (body : List Nat)
    (hb2 : req.block2 = some (num, szx + 4, b))
    (hb1 : blockMore req.block1 = false)
    (hin : num * 2 ^ (szx + 4) ≤ body.length)
    (hov : (num + 1) * 2 ^ (szx + 4) < 2 ^ 32)
    (hfit : L + 1 + 2 ^ (szx + 4) ≤ maxCOAPPacketLen) :
    translateHTTPResponseToCOAPResponse (fun _ => some L) (some hr) body false req =
      some ({ msg :=
                { mtype := COAPType.acknowledgement
                  code := translateStatusCode hr.statusCode
                  messageID := req.messageID
                  token := req.token
                  payload := (body.drop (num * 2 ^ (szx + 4))).take
                      (min ((num + 1) * 2 ^ (szx + 4)) body.length - num * 2 ^ (szx + 4))
                  contentFormat := translateContentTypeWithEncoding hr.contentType hr.contentEncoding
                  uriQuery := []
                  block1 := req.block1
                  block2 := some (num, szx + 4,
                      decide ((num + 1) * 2 ^ (szx + 4) ≤ body.length)) }
              isTruncated := false }, false) := by
  rw [translate_eval_block2 L num (szx + 4) b req hr body hb1 hb2]
  rw [block2Carve_in_range num (szx + 4) body hin hov]
  dsimp only
  have hlen : ((body.drop (num * 2 ^ (szx + 4))).take
      (min ((num + 1) * 2 ^ (szx + 4)) body.length - num * 2 ^ (szx + 4))).length ≤
      2 ^ (szx + 4) := by
    rw [List.length_take, List.length_drop]
    have hsm : (num + 1) * 2 ^ (szx + 4) = num * 2 ^ (szx + 4) + 2 ^ (szx + 4) := by ring
    rw [hsm]
    generalize num * 2 ^ (szx + 4) = A
    generalize 2 ^ (szx + 4) = S
    omega
  rw [marshalAndFit_const_fits L _ _ (by omega)]

/-- Witness for c1_amended_block2_slice: num 0, wire szx 0, 20-byte body. -/
theorem c1_amended_block2_slice_witness :
    ∃ out,
      translateHTTPResponseToCOAPResponse (fun _ => some 8)
          (some { statusCode := 200, contentType := "", contentEncoding := "" })
          (List.replicate 20 66) false
          { mtype := COAPType.confirmable, code := COAPCode.GET, messageID := 2,
            token := [9], payload := [], block2 := some (0, 0 + 4, false) } = some out :=
  ⟨_, c1_amended_block2_slice 0 0 8 false
        { mtype := COAPType.confirmable, code := COAPCode.GET, messageID := 2,
          token := [9], payload := [], block2 := some (0, 0 + 4, false) }
        { statusCode := 200, contentType := "", contentEncoding := "" }
        (List.replicate 20 66) rfl rfl (by decide) (by decide) (by decide)⟩

/-- Claim C9: for a Block2 request whose computed read offset (the uint32
product num * 2^(szx+4)) lies strictly beyond the HTTP body, the offset is
reset to 0 and a non-empty response carrying the body from its start is
returned with no error (the clamped window covers the whole body, so the
payload is the entire body and more = false). -/
theorem c9_out_of_range_reset (num szx L : Nat) (b : Bool) (req : Message)
    (hr : HttpResponse) (body : List Nat)
    (hszx : szx ≤ 6)
    (hb2 : req.block2 = some (num, szx + 4, b))
    (hb1 : blockMore req.block1 = false)
    (hout : body.length < num * 2 ^ (szx + 4) % 2 ^ 32)
    (hne : body ≠ [])
    (hfit : L + 1 + body.length ≤ maxCOAPPacketLen) :
    translateHTTPResponseToCOAPResponse (fun _ => some L) (some hr) body false req =
      some ({ msg :=
                { mtype := COAPType.acknowledgement
                  code := translateStatusCode hr.statusCode
                  messageID := req.messageID
                  token := req.token
                  payload := body
                  contentFormat := translateContentTypeWithEncoding hr.contentType hr.contentEncoding
                  uriQuery := []
                  block1 := req.block1
                  block2 := some (num, szx + 4, false) }
              isTruncated := false }, false) ∧
    body ≠ [] := by
  refine ⟨?_, hne⟩
  rw [translate_eval_block2 L num (szx + 4) b req hr body hb1 hb2]
  have hsz : 2 ^ (szx + 4) < 2 ^ 32 := by
    calc 2 ^ (szx + 4) ≤ 2 ^ 10 := Nat.pow_le_pow_right (by norm_num) (by omega)
    _ < 2 ^ 32 := by norm_num
  rw [block2Carve_reset num (szx + 4) body hsz hout]
  rw [marshalAndFit_const_fits L _ body hfit]

/-- Witness for c9_out_of_range_reset: num 1, wire szx 0 (so the offset is
16), 1-byte body. -/
theorem c9_out_of_range_reset_witness :
    ∃ out,
      translateHTTPResponseToCOAPResponse (fun _ => some 8)
          (some { statusCode := 200, contentType := "", contentEncoding := "" })
          [5] false
          { mtype := COAPType.confirmable, code := COAPCode.GET, messageID := 4,
            token := [3], payload := [], block2 := some (1, 0 + 4, false) } = some out :=
  ⟨_, (c9_out_of_range_reset 1 0 8 false
        { mtype := COAPType.confirmable, code := COAPCode.GET, messageID := 4,
          token := [3], payload := [], block2 := some (1, 0 + 4, false) }
        { statusCode := 200, contentType := "", contentEncoding := "" }
        [5] (by decide) rfl rfl (by decide) (by decide) (by decide)).1⟩

/-! ## Skeleton-field preservation and the handler claims -/

theorem marshalAndFit_fields (f : Message → Option Nat) (resp : Message) (body : List Nat)
    (tm : translatedCOAPMessage) (e : Bool)
    (h : marshalAndFit f resp body = some (tm, e)) :
    tm.msg.mtype = resp.mtype ∧ tm.msg.messageID = resp.messageID ∧
      tm.msg.token = resp.token := by
  unfold marshalAndFit at h
  split at h
  · rw [Option.some.injEq, Prod.mk.injEq] at h
    obtain ⟨h1, _⟩ := h
    subst h1
    exact ⟨rfl, rfl, rfl⟩
  · dsimp only at h
    split at h
    · exact absurd h (by simp)
    · split at h
      · rw [Option.some.injEq, Prod.mk.injEq] at h
        obtain ⟨h1, _⟩ := h
        subst h1
        exact ⟨rfl, rfl, rfl⟩
      · rw [Option.some.injEq, Prod.mk.injEq] at h
        obtain ⟨h1, _⟩ := h
        subst h1
        exact ⟨rfl, rfl, rfl⟩

theorem translate_fields (marshalLen : Message → Option Nat)
    (httpResp : Option HttpResponse) (httpBody : List Nat) (httpError : Bool)
    (req : Message) (tm : translatedCOAPMessage) (e : Bool)
    (h : translateHTTPResponseToCOAPResponse marshalLen httpResp httpBody httpError req =
      some (tm, e)) :
    tm.msg.mtype = COAPType.acknowledgement ∧ tm.msg.messageID = req.messageID ∧
      tm.msg.token = req.token := by
  unfold translateHTTPResponseToCOAPResponse at h
  split at h
  · rw [Option.some.injEq, Prod.mk.injEq] at h
    obtain ⟨h1, _⟩ := h
    subst h1
    exact ⟨rfl, rfl, rfl⟩
  · rcases hq1 : req.block1 with _ | ⟨n1, s1, m1⟩ <;> rw [hq1] at h <;> dsimp only at h
    · rw [if_neg (by simp [blockMore, hq1])] at h
      rcases hq2 : req.block2 with _ | ⟨n2, s2, m2⟩ <;> rw [hq2] at h <;> dsimp only at h <;>
        rcases hhr : httpResp with _ | hr <;> rw [hhr] at h <;> dsimp only at h
      · exact absurd h (by simp)
      · exact marshalAndFit_fields _ _ _ _ _ h
      · exact absurd h (by simp)
      · exact marshalAndFit_fields _ _ _ _ _ h
    · cases m1 with
      | true =>
        rw [if_pos (by simp [blockMore])] at h
        rw [Option.some.injEq, Prod.mk.injEq] at h
        obtain ⟨h1, _⟩ := h
        subst h1
        exact ⟨rfl, rfl, rfl⟩
      | false =>
        rw [if_neg (by simp [blockMore])] at h
        rcases hq2 : req.block2 with _ | ⟨n2, s2, m2⟩ <;> rw [hq2] at h <;> dsimp only at h <;>
          rcases hhr : httpResp with _ | hr <;> rw [hhr] at h <;> dsimp only at h
        · exact absurd h (by simp)
        · exact marshalAndFit_fields _ _ _ _ _ h
        · exact absurd h (by simp)
        · exact marshalAndFit_fields _ _ _ _ _ h

theorem goroutineV1_ack (marshalLen : Message → Option Nat) (m : Message)
    (cacheOk : Bool) (httpResult : Option (HttpResponse × List Nat))
    (r : Option Message) (hm : m.isConfirmable = true)
    (h : goroutineV1 marshalLen m cacheOk httpResult = some r) :
    ∃ msg, r = some msg ∧ msg.mtype = COAPType.acknowledgement ∧
      msg.messageID = m.messageID ∧ msg.token = m.token := by
  unfold goroutineV1 at h
  rw [hm] at h
  dsimp only at h
  split at h
  · rw [Option.some.injEq] at h
    subst h
    exact ⟨_, rfl, rfl, rfl, rfl⟩
  · split at h
    · rw [if_pos rfl] at h
      rcases htr : translateHTTPResponseToCOAPResponse marshalLen none [] false m with
        _ | ⟨tm, e⟩ <;> rw [htr] at h
      · exact absurd h (by simp)
      · rw [Option.some.injEq] at h
        subst h
        obtain ⟨h1, h2, h3⟩ := translate_fields marshalLen none [] false m tm e htr
        exact ⟨tm.msg, rfl, h1, h2, h3⟩
    · split at h
      · rw [Option.some.injEq] at h
        subst h
        exact ⟨_, rfl, rfl, rfl, rfl⟩
      · rw [if_pos rfl] at h
        rename_i hr httpBody
        rcases htr : translateHTTPResponseToCOAPResponse marshalLen (some hr) httpBody false m
          with _ | ⟨tm, e⟩ <;> rw [htr] at h
        · exact absurd h (by simp)
        · rw [Option.some.injEq] at h
          subst h
          obtain ⟨h1, h2, h3⟩ :=
            translate_fields marshalLen (some hr) httpBody false m tm e htr
          exact ⟨tm.msg, rfl, h1, h2, h3⟩

/-- Claim C3: both handler revisions answer every confirmable request with
exactly one acknowledgement carrying the request's messageID and token, on
every path (bad request, cache failure, HTTP error, Block1 Continue and
successful translation). -/
theorem c3_confirmable_ack (marshalLen : Message → Option Nat) (m : Message)
    (reqValid cacheOk : Bool) (httpResult : Option (HttpResponse × List Nat))
    (out1 out2 : Option Message × Bool) (hm : m.isConfirmable = true) :
    (serveCOAP_v1 marshalLen m reqValid cacheOk httpResult = some out1 →
      ∃ r, out1.1 = some r ∧ r.mtype = COAPType.acknowledgement ∧
        r.messageID = m.messageID ∧ r.token = m.token) ∧
    (serveCOAP_v2 marshalLen m reqValid httpResult = some out2 →
      ∃ r, out2.1 = some r ∧ r.mtype = COAPType.acknowledgement ∧
        r.messageID = m.messageID ∧ r.token = m.token) := by
  constructor
  · intro h
    unfold serveCOAP_v1 at h
    split at h
    · rw [Option.some.injEq] at h
      subst h
      exact ⟨_, rfl, rfl, rfl, rfl⟩
    · split at h
      · exact absurd h (by simp)
      · rename_i r hg
        rw [Option.some.injEq] at h
        subst h
        obtain ⟨msg, hr1, hr2, hr3, hr4⟩ :=
          goroutineV1_ack marshalLen m cacheOk httpResult r hm hg
        exact ⟨msg, hr1, hr2, hr3, hr4⟩
  · intro h
    unfold serveCOAP_v2 at h
    rw [hm] at h
    dsimp only at h
    split at h
    · rw [if_pos rfl] at h
      rw [Option.some.injEq] at h
      subst h
      exact ⟨_, rfl, rfl, rfl, rfl⟩
    · rw [if_pos rfl] at h
      split at h
      · rcases htr : translateHTTPResponseToCOAPResponse marshalLen none [] true m with
          _ | ⟨tm, e⟩ <;> rw [htr] at h
        · exact absurd h (by simp)
        · rw [Option.some.injEq] at h
          subst h
          obtain ⟨h1, h2, h3⟩ := translate_fields marshalLen none [] true m tm e htr
          exact ⟨tm.msg, rfl, h1, h2, h3⟩
      · rename_i hr httpBody
        rcases htr : translateHTTPResponseToCOAPResponse marshalLen (some hr) httpBody false m
          with _ | ⟨tm, e⟩ <;> rw [htr] at h
        · exact absurd h (by simp)
        · rw [Option.some.injEq] at h
          subst h
          obtain ⟨h1, h2, h3⟩ :=
            translate_fields marshalLen (some hr) httpBody false m tm e htr
          exact ⟨tm.msg, rfl, h1, h2, h3⟩

/-- Witness for c3_confirmable_ack: a confirmable request with an invalid
URL (reqValid false) on both handlers. -/
theorem c3_confirmable_ack_witness :
    ∃ r, (((some (generateCOAPResponseMessage
            { mtype := COAPType.confirmable, code := COAPCode.GET, messageID := 11,
              token := [4], payload := [] } COAPCode.BadRequest), false) :
          Option Message × Bool)).1 = some r ∧
      r.mtype = COAPType.acknowledgement ∧ r.messageID = 11 ∧ r.token = [4] :=
  (c3_confirmable_ack (fun _ => some 8)
    { mtype := COAPType.confirmable, code := COAPCode.GET, messageID := 11,
      token := [4], payload := [] }
    false true none
    (some (generateCOAPResponseMessage
      { mtype := COAPType.confirmable, code := COAPCode.GET, messageID := 11,
        token := [4], payload := [] } COAPCode.BadRequest), false)
    (none, false) rfl).1 rfl

/-- Claim C4 counterexample: in handler revision 1 a non-confirmable
request with a valid URL does yield a response message (a 2.05 Content
acknowledgement is returned to the dispatcher), contradicting the claim
that no CoAP message is returned. -/
theorem c4_counterexample :
    serveCOAP_v1 (fun _ => some 8)
        { mtype := COAPType.nonConfirmable, code := COAPCode.GET, messageID := 9,
          token := [2], payload := [] } true true
        (some ({ statusCode := 200, contentType := "", contentEncoding := "" }, [])) =
      some (some { mtype := COAPType.acknowledgement, code := COAPCode.Content,
                   messageID := 9, token := [2], payload := [] }, true) := by decide

/-- Claim C4 as amended: for a non-confirmable request with a valid URL,
handler revision 2 emits no message while revision 1 (for a request with
no Block1 option) returns an immediate 2.05 Content acknowledgement; in
both revisions the backend HTTP call is still issued. -/
theorem c4_amended_nonconfirmable (marshalLen : Message → Option Nat) (m : Message)
    (cacheOk : Bool) (httpResult : Option (HttpResponse × List Nat))
    (hm : m.isConfirmable = false) (hb1 : m.block1 = none) :
    serveCOAP_v2 marshalLen m true httpResult = some (none, true) ∧
    serveCOAP_v1 marshalLen m true cacheOk httpResult =
      some (some (generateCOAPResponseMessage m COAPCode.Content), true) := by
  constructor
  · unfold serveCOAP_v2
    rw [hm]
    simp
  · unfold serveCOAP_v1 httpCalledV1
    rw [hm, hb1]
    simp [blockMore]

/-- Witness for c4_amended_nonconfirmable at a concrete non-confirmable GET. -/
theorem c4_amended_nonconfirmable_witness :
    serveCOAP_v2 (fun _ => some 8)
        { mtype := COAPType.nonConfirmable, code := COAPCode.GET, messageID := 21,
          token := [8], payload := [] } true none = some (none, true) ∧
    serveCOAP_v1 (fun _ => some 8)
        { mtype := COAPType.nonConfirmable, code := COAPCode.GET, messageID := 21,
          token := [8], payload := [] } true false none =
      some (some (generateCOAPResponseMessage
        { mtype := COAPType.nonConfirmable, code := COAPCode.GET, messageID := 21,
          token := [8], payload := [] } COAPCode.Content), true) :=
  c4_amended_nonconfirmable (fun _ => some 8)
    { mtype := COAPType.nonConfirmable, code := COAPCode.GET, messageID := 21,
      token := [8], payload := [] } false none rfl rfl

/-- Claim C5 counterexample: in handler revision 1 a confirmable request
whose backend HTTP call fails receives a 5.00 Internal Server Error
acknowledgement, not the claimed 5.03 Service Unavailable (the transport
error is intercepted before the translator runs). -/
theorem c5_counterexample :
    serveCOAP_v1 (fun _ => some 8)
        { mtype := COAPType.confirmable, code := COAPCode.GET, messageID := 12,
          token := [6], payload := [] } true true none =
      some (some { mtype := COAPType.acknowledgement,
                   code := COAPCode.InternalServerError,
                   messageID := 12, token := [6], payload := [] }, true) ∧
    COAPCode.InternalServerError ≠ COAPCode.ServiceUnavailable := by decide

/-- Claim C5 as amended: the translator itself maps a failed HTTP call to
5.03 Service Unavailable with no Content-Format and an empty payload, and
handler revision 2 returns exactly that to the client; handler revision 1,
however, intercepts the transport error and returns 5.00 Internal Server
Error without invoking the translator. -/
theorem c5_amended_http_error (marshalLen : Message → Option Nat) (m req : Message)
    (httpBody : List Nat) (hm : m.isConfirmable = true) (hb1 : m.block1 = none) :
    translateHTTPResponseToCOAPResponse marshalLen none httpBody true req =
      some ({ msg := { mtype := COAPType.acknowledgement,
                       code := COAPCode.ServiceUnavailable,
                       messageID := req.messageID, token := req.token, payload := [] }
              isTruncated := false }, false) ∧
    serveCOAP_v2 marshalLen m true none =
      some (some { mtype := COAPType.acknowledgement,
                   code := COAPCode.ServiceUnavailable,
                   messageID := m.messageID, token := m.token, payload := [] }, true) ∧
    serveCOAP_v1 marshalLen m true true none =
      some (some (generateCOAPResponseMessage m COAPCode.InternalServerError), true) := by
  refine ⟨rfl, ?_, ?_⟩
  · unfold serveCOAP_v2
    rw [hm]
    rfl
  · unfold serveCOAP_v1 goroutineV1 httpCalledV1
    rw [hm, hb1]
    rfl

/-- Witness for c5_amended_http_error at a concrete confirmable GET whose
backend call fails. -/
theorem c5_amended_http_error_witness :
    translateHTTPResponseToCOAPResponse (fun _ => some 8) none [] true
        { mtype := COAPType.confirmable, code := COAPCode.GET, messageID := 14,
          token := [5], payload := [] } =
      some ({ msg := { mtype := COAPType.acknowledgement,
                       code := COAPCode.ServiceUnavailable,
                       messageID := 14, token := [5], payload := [] }
              isTruncated := false }, false) ∧
    serveCOAP_v2 (fun _ => some 8)
        { mtype := COAPType.confirmable, code := COAPCode.GET, messageID := 14,
          token := [5], payload := [] } true none =
      some (some { mtype := COAPType.acknowledgement,
                   code := COAPCode.ServiceUnavailable,
                   messageID := 14, token := [5], payload := [] }, true) ∧
    serveCOAP_v1 (fun _ => some 8)
        { mtype := COAPType.confirmable, code := COAPCode.GET, messageID := 14,
          token := [5], payload := [] } true true none =
      some (some (generateCOAPResponseMessage
        { mtype := COAPType.confirmable, code := COAPCode.GET, messageID := 14,
          token := [5], payload := [] } COAPCode.InternalServerError), true) :=
  c5_amended_http_error (fun _ => some 8)
    { mtype := COAPType.confirmable, code := COAPCode.GET, messageID := 14,
      token := [5], payload := [] }
    { mtype := COAPType.confirmable, code := COAPCode.GET, messageID := 14,
      token := [5], payload := [] } [] rfl rfl

/-- Claim C6: in handler revision 1, a confirmable request carrying a
Block1 option with more = true (and a successful caching step) is answered
with a 2.31 Continue acknowledgement echoing the Block1 option, and no
backend HTTP call is issued (the second result component is false). -/
theorem c6_block1_continue (marshalLen : Message → Option Nat) (m : Message)
    (num szx : Nat) (httpResult : Option (HttpResponse × List Nat))
    (hm : m.isConfirmable = true) (hb1 : m.block1 = some (num, szx, true)) :
    serveCOAP_v1 marshalLen m true true httpResult =
      some (some { mtype := COAPType.acknowledgement, code := COAPCode.Continue,
                   messageID := m.messageID, token := m.token, payload := [],
                   block1 := some (num, szx, true) }, false) := by
  unfold serveCOAP_v1 goroutineV1 httpCalledV1 translateHTTPResponseToCOAPResponse
    responseSkeleton
  rw [hm, hb1]
  rfl

/-- Witness for c6_block1_continue at a concrete Block1 fragment
(num 2, library szx 4, more true). -/
theorem c6_block1_continue_witness :
    serveCOAP_v1 (fun _ => some 8)
        { mtype := COAPType.confirmable, code := COAPCode.POST, messageID := 31,
          token := [9], payload := [1], block1 := some (2, 4, true) } true true none =
      some (some { mtype := COAPType.acknowledgement, code := COAPCode.Continue,
                   messageID := 31, token := [9], payload := [],
                   block1 := some (2, 4, true) }, false) :=
  c6_block1_continue (fun _ => some 8)
    { mtype := COAPType.confirmable, code := COAPCode.POST, messageID := 31,
      token := [9], payload := [1], block1 := some (2, 4, true) } 2 4 none rfl rfl
